import Mathlib

/-!
# Verification development for the dynamic module loader and realm address selection

Shallow embedding of

* `src/server/shared/Realms/Realm.cpp` (`Realm::GetAddressForClient`), and
* `src/server/game/Modules/DynamicModuleLoader.cpp` (`DynamicModuleUnloader`,
  `HandleHolder`, `DynamicModule`, `GetFunctionFromSharedLibrary`,
  `DynamicModule::CreateFromPath`, `HasValidDynamicModuleName`).

Platform primitives (load / resolve / close of a shared library, the behaviour of a
resolved entry point) are parameters of the model. Effects are recorded, in program
order, in an explicit trace of events carried by the `World`.
-/

namespace Realms

/-! ## `boost::asio::ip::address` -/

/-- An IPv4 address, as the 32-bit unsigned integer `to_uint()` gives. -/
abbrev address_v4 := Nat

/-- The type `boost::asio::ip::address`: either an IPv4 address (its 32-bit value) or an
IPv6 address (its 128-bit value). -/
inductive address where
  | v4 (a : address_v4)
  | v6 (a : Nat)
  deriving DecidableEq

/-- The call `address::is_v4()`. -/
def address.is_v4 : address → Bool
  | .v4 _ => true
  | .v6 _ => false

/-- The call `address::to_v4()`: the IPv4 address held; `none` stands for the
`bad_address_cast` exception thrown when the address is not IPv4. -/
def address.to_v4 : address → Option address_v4
  | .v4 a => some a
  | .v6 _ => none

/-- The call `address::is_loopback()`: `127.0.0.0/8` for IPv4
(`(to_uint() & 0xFF000000) == 0x7F000000`), `::1` for IPv6. -/
def address.is_loopback : address → Bool
  | .v4 a => a &&& 0xFF000000 == 0x7F000000
  | .v6 a => a == 1

/-- The call `Acore::Net::make_address_v4("a.b.c.d")`, the dotted quad given as its four
decimal fields. -/
def make_address_v4 (a b c d : Nat) : address_v4 :=
  (a * 2 ^ 24 + b * 2 ^ 16 + c * 2 ^ 8 + d) % 2 ^ 32

/-- Modelled from the spec: `Acore::Net::IsInNetwork` is declared in `IpNetwork.h`, which is
not among the sources. It is read as membership of `clientAddress` in the subnet of
`networkAddress` under `mask`: both addresses agree on the bits of the mask. -/
def IsInNetwork (networkAddress mask clientAddress : address_v4) : Bool :=
  clientAddress &&& mask == networkAddress &&& mask

/-- The type `boost::asio::ip::tcp_endpoint`: an address and a port. -/
structure tcp_endpoint where
  address : address
  port : Nat
  deriving DecidableEq

/-- The fields of `Realm` that `GetAddressForClient` reads. -/
structure Realm where
  ExternalAddress : address
  LocalAddress : address
  LocalSubnetMask : address
  Port : Nat
  deriving DecidableEq

/-- The local `clientAddrIsPrivate` of `Realm::GetAddressForClient` (Realm.cpp lines 32-36).
`anyPrivateClientIsLocal` is the value of
`sConfigMgr->GetOption<bool>("AnyPrivateClientIsLocal", false)`; `inNet` is
`Acore::Net::IsInNetwork`. `clientAddr.to_v4()` is only evaluated behind
`clientAddr.is_v4()`, so no exception can arise here. -/
def clientAddrIsPrivate (inNet : address_v4 → address_v4 → address_v4 → Bool)
    (anyPrivateClientIsLocal : Bool) (clientAddr : address) : Bool :=
  anyPrivateClientIsLocal &&
    match clientAddr with
    | .v4 c =>
        inNet (make_address_v4 10 0 0 0) (make_address_v4 255 0 0 0) c ||
        inNet (make_address_v4 172 12 0 0) (make_address_v4 255 240 0 0) c ||
        inNet (make_address_v4 192 168 0 0) (make_address_v4 255 255 0 0) c
    | .v6 _ => false

/-- The local `clientAddrIsLocal` of `Realm::GetAddressForClient` (Realm.cpp lines 39-40).
Behind `clientAddr.is_v4()` the arguments `LocalAddress->to_v4()` and
`LocalSubnetMask->to_v4()` are evaluated; `none` stands for the `bad_address_cast` either
of them throws. -/
def clientAddrIsLocal (inNet : address_v4 → address_v4 → address_v4 → Bool)
    (realm : Realm) (clientAddr : address) : Option Bool :=
  match clientAddr with
  | .v4 c =>
      match realm.LocalAddress.to_v4, realm.LocalSubnetMask.to_v4 with
      | some l, some m => some (inNet l m c)
      | _, _ => none
  | .v6 _ => some false

/-- The method `Realm::GetAddressForClient` (Realm.cpp lines 25-60). `none` stands for an
exception leaving the function. -/
def GetAddressForClient (inNet : address_v4 → address_v4 → address_v4 → Bool)
    (anyPrivateClientIsLocal : Bool) (realm : Realm) (clientAddr : address) :
    Option tcp_endpoint :=
  let isPrivate := clientAddrIsPrivate inNet anyPrivateClientIsLocal clientAddr
  match clientAddrIsLocal inNet realm clientAddr with
  | none => none
  | some isLocal =>
      let realmIp :=
        if clientAddr.is_loopback &&
            (realm.LocalAddress.is_loopback || realm.ExternalAddress.is_loopback) then
          clientAddr
        else if clientAddr.is_loopback || isLocal || isPrivate then
          realm.LocalAddress
        else
          realm.ExternalAddress
      some ⟨realmIp, realm.Port⟩

/-- The condition "the client is IPv4 inside the `LocalAddress`/`LocalSubnetMask` network",
as the specification words it. -/
def insideLocalNetwork_spec (inNet : address_v4 → address_v4 → address_v4 → Bool)
    (realm : Realm) (clientAddr : address) : Bool :=
  match clientAddr, realm.LocalAddress, realm.LocalSubnetMask with
  | .v4 c, .v4 l, .v4 m => inNet l m c
  | _, _, _ => false

/-- The address selection as the specification words it: the client's own address if the
client is loopback and `LocalAddress` or `ExternalAddress` is loopback; otherwise
`LocalAddress` if the client is loopback, or is IPv4 inside the
`LocalAddress`/`LocalSubnetMask` network, or is private (option enabled); otherwise
`ExternalAddress`. -/
def selectedAddress_spec (inNet : address_v4 → address_v4 → address_v4 → Bool)
    (anyPrivateClientIsLocal : Bool) (realm : Realm) (clientAddr : address) : address :=
  if clientAddr.is_loopback = true ∧
      (realm.LocalAddress.is_loopback = true ∨ realm.ExternalAddress.is_loopback = true) then
    clientAddr
  else if clientAddr.is_loopback = true ∨
      insideLocalNetwork_spec inNet realm clientAddr = true ∨
      clientAddrIsPrivate inNet anyPrivateClientIsLocal clientAddr = true then
    realm.LocalAddress
  else
    realm.ExternalAddress

/-- The RFC 1918 private IPv4 networks `10.0.0.0/8`, `172.16.0.0/12` and `192.168.0.0/16`,
as the specification names them, under the subnet reading of `IsInNetwork`. -/
def isRfc1918_spec (c : address_v4) : Bool :=
  IsInNetwork (make_address_v4 10 0 0 0) (make_address_v4 255 0 0 0) c ||
  IsInNetwork (make_address_v4 172 16 0 0) (make_address_v4 255 240 0 0) c ||
  IsInNetwork (make_address_v4 192 168 0 0) (make_address_v4 255 255 0 0) c

/-- A realm at `203.0.113.5` externally and `192.168.1.10/24` locally, port 8085. -/
def exampleRealm : Realm :=
  ⟨.v4 (make_address_v4 203 0 113 5), .v4 (make_address_v4 192 168 1 10),
    .v4 (make_address_v4 255 255 255 0), 8085⟩

/-- The same realm with the IPv6 loopback `::1` as its `LocalAddress`. -/
def ipv6LocalRealm : Realm :=
  ⟨.v4 (make_address_v4 203 0 113 5), .v6 1, .v4 (make_address_v4 255 255 255 0), 8085⟩

end Realms

namespace Modules

/-! ## Text: `std::format` and the fragment of `std::regex` the loader uses -/

/-- The `{}` substitution of `std::format` and of the logging macros: each `{}` of the
format text is replaced, left to right, by the next argument (format texts without
brace escapes; the texts of the source have as many arguments as placeholders). -/
def formatChars : List Char → List (List Char) → List Char
  | [], _ => []
  | '{' :: '}' :: rest, a :: as => a ++ formatChars rest as
  | c :: rest, as => c :: formatChars rest as

/-- The call `std::format(fmt, args...)` on strings. -/
def format (fmt : String) (args : List String) : String :=
  String.mk (formatChars fmt.data (args.map String.data))

/-- One member of a bracket expression: a single character or a range `lo-hi`. -/
inductive ClassItem where
  | single (c : Char)
  | range (lo hi : Char)
  deriving DecidableEq

/-- One element of a pattern of the fragment: an ordinary character, or a bracket
expression. Each consumes exactly one character of the subject; the fragment has no
quantifier, no wildcard and no escape. -/
inductive Atom where
  | chr (c : Char)
  | bracket (items : List ClassItem)
  deriving DecidableEq

/-- Characters that are special to the ECMAScript grammar outside a bracket expression. -/
def isSpecial (c : Char) : Bool :=
  c ∈ ['.', '^', '$', '*', '+', '?', '(', ')', '{', '}', '|', '\\', ']']

/-- Where the reader of a pattern stands: outside a bracket expression; inside one, with
the members read so far; inside one right after a member candidate `lo`; inside one right
after `lo-`. -/
inductive ReadState where
  | outside
  | inside (items : List ClassItem)
  | afterChar (items : List ClassItem) (lo : Char)
  | afterDash (items : List ClassItem) (lo : Char)
  deriving DecidableEq

/-- The constructor `std::regex(text)` restricted to the fragment: ordinary characters and
bracket expressions made of single characters and ranges `lo-hi` (a `-` right before the
closing `]` is an ordinary character). `none` stands for a pattern outside the fragment or
rejected with `regex_error`. -/
def parseRegex : ReadState → List Char → Option (List Atom)
  | .outside, [] => some []
  | _, [] => none
  | .outside, c :: rest =>
      if c = '[' then parseRegex (.inside []) rest
      else if isSpecial c then none
      else (parseRegex .outside rest).map (Atom.chr c :: ·)
  | .inside items, c :: rest =>
      if c = ']' then (parseRegex .outside rest).map (Atom.bracket items :: ·)
      else if c = '\\' ∨ c = '[' ∨ c = '^' then none
      else parseRegex (.afterChar items c) rest
  | .afterChar items lo, c :: rest =>
      if c = ']' then
        (parseRegex .outside rest).map (Atom.bracket (items ++ [ClassItem.single lo]) :: ·)
      else if c = '-' then parseRegex (.afterDash items lo) rest
      else if c = '\\' ∨ c = '[' then none
      else parseRegex (.afterChar (items ++ [ClassItem.single lo]) c) rest
  | .afterDash items lo, c :: rest =>
      if c = ']' then
        (parseRegex .outside rest).map
          (Atom.bracket (items ++ [ClassItem.single lo, ClassItem.single '-']) :: ·)
      else if c = '\\' ∨ c = '[' then none
      else parseRegex (.inside (items ++ [ClassItem.range lo c])) rest

/-- Whether a character belongs to a member of a bracket expression (ranges compare
character codes). -/
def ClassItem.accepts : ClassItem → Char → Bool
  | .single x, c => c == x
  | .range lo hi, c => decide (lo ≤ c) && decide (c ≤ hi)

/-- Whether a pattern element matches a character. -/
def Atom.accepts : Atom → Char → Bool
  | .chr x, c => c == x
  | .bracket items, c => items.any (·.accepts c)

/-- The call `std::regex_match(subject, pattern)`: the pattern has to match the whole
subject. -/
def regex_match : List Char → List Atom → Bool
  | [], [] => true
  | c :: cs, a :: as => a.accepts c && regex_match cs as
  | _, _ => false

/-- The build targets `AC_PLATFORM` distinguishes (DynamicModuleLoader.cpp lines 33-60). -/
inductive AC_PLATFORM where
  | WINDOWS
  | APPLE
  | POSIX
  deriving DecidableEq

/-- The macro `SHARED_LIBRARY_PREFIX`. -/
def SHARED_LIBRARY_PREFIX : AC_PLATFORM → String
  | .WINDOWS => ""
  | .APPLE => "libmod"
  | .POSIX => "libmod"

/-- The macro `SHARED_LIBRARY_EXTENSION`. -/
def SHARED_LIBRARY_EXTENSION : AC_PLATFORM → String
  | .WINDOWS => "dll"
  | .APPLE => "dylib"
  | .POSIX => "so"

/-- The function `HasValidDynamicModuleName` (DynamicModuleLoader.cpp lines 191-195). A
pattern the regex constructor rejects accepts no name. -/
def HasValidDynamicModuleName (target : AC_PLATFORM) (name : String) : Bool :=
  match parseRegex .outside
      (format "{}_[a-zA-Z0-9_-]{}"
        [SHARED_LIBRARY_PREFIX target, SHARED_LIBRARY_EXTENSION target]).data with
  | some pattern => regex_match name.data pattern
  | none => false

/-- The character class `[a-zA-Z0-9_-]`: letters, digits, `_` and `-`. -/
def isIdentifierChar (c : Char) : Bool :=
  (decide ('a' ≤ c) && decide (c ≤ 'z')) || (decide ('A' ≤ c) && decide (c ≤ 'Z')) ||
    (decide ('0' ≤ c) && decide (c ≤ '9')) || c == '_' || c == '-'

/-- The naming convention as the specification words it:
`<platform-prefix>_<identifier>.<platform-extension>` with a non-empty identifier of
letters, digits, `_` and `-`. -/
def validModuleName_spec (target : AC_PLATFORM) (name : String) : Bool :=
  let pre := (SHARED_LIBRARY_PREFIX target).data ++ ['_']
  let suf := '.' :: (SHARED_LIBRARY_EXTENSION target).data
  let mid := (name.data.drop pre.length).take (name.data.length - pre.length - suf.length)
  pre.isPrefixOf name.data && suf.isSuffixOf name.data &&
    decide (pre.length + suf.length < name.data.length) && mid.all isIdentifierChar

/-! ## The platform and the observable world -/

/-- A non-null native library handle (`HandleType`). -/
abbrev HandleType := Nat

/-- The address of a function of a loaded library (non-null). -/
abbrev Fn := Nat

/-- A nullable pointer to an entry point; `none` is `nullptr`. -/
abbrev FnPtr := Option Fn

/-- The platform primitives behind the macros `LOAD_SHARED_LIBRARY`,
`GET_FUNCTION_FROM_SHARED` and `CLOSE_LIBRARY`, and the behaviour of a resolved entry
point when it is called. `none` is the null handle resp. the null function pointer;
`close` answers whether the platform reported success. -/
structure Platform where
  load : String → Option HandleType
  resolve : HandleType → String → FnPtr
  close : HandleType → Bool
  call : Fn → String

/-- The functor `DynamicModuleUnloader` (lines 66-85): it stores the path. -/
structure DynamicModuleUnloader where
  path_ : String
  deriving DecidableEq

/-- The type `HandleHolder` (lines 87-89): a `std::unique_ptr` over the native handle with
a `DynamicModuleUnloader` as deleter. `ptr = none` is the empty (moved-from) holder. -/
structure HandleHolder where
  ptr : Option HandleType
  deleter : DynamicModuleUnloader
  deriving DecidableEq

/-- The data members of `DynamicModule` (lines 131-139). -/
structure DynamicModule where
  _handle : HandleHolder
  _getScriptModuleRevisionHash : FnPtr
  _addScripts : FnPtr
  _getScriptModule : FnPtr
  _getBuildDirective : FnPtr
  _path : String
  deriving DecidableEq

/-- Severity of a log entry. -/
inductive LogLevel where
  | error
  | trace
  deriving DecidableEq

/-- What the program does to its environment, one entry per action: a call of a platform
primitive with its result, a log entry with its formatted message, a call through an
entry point of a module. -/
inductive Event where
  | load (path : String) (result : Option HandleType)
  | resolve (handle : HandleType) (name : String) (result : FnPtr)
  | close (handle : HandleType) (success : Bool)
  | log (level : LogLevel) (filter : String) (message : String)
  | invoke (fn : Fn)
  deriving DecidableEq

/-- The state outside the function under study: the trace of events so far, in program
order; the OS state, i.e. the open library handles (a handle is open from the load that
returned it until the close primitive is invoked on it); and the `DynamicModule` objects
that have been constructed and not destroyed. -/
structure World where
  events : List Event
  opened : List HandleType
  objects : List DynamicModule
  deriving DecidableEq

/-- Append one event to the trace. -/
def World.emit (w : World) (e : Event) : World :=
  { w with events := w.events ++ [e] }

/-- The macro `LOAD_SHARED_LIBRARY(path)`: a returned handle becomes open. -/
def LOAD_SHARED_LIBRARY (os : Platform) (path : String) (w : World) :
    Option HandleType × World :=
  match os.load path with
  | some h => (some h, { (w.emit (.load path (some h))) with opened := h :: w.opened })
  | none => (none, w.emit (.load path none))

/-- The macro `GET_FUNCTION_FROM_SHARED(handle, name)`. -/
def GET_FUNCTION_FROM_SHARED (os : Platform) (handle : HandleType) (name : String)
    (w : World) : FnPtr × World :=
  (os.resolve handle name, w.emit (.resolve handle name (os.resolve handle name)))

/-- The macro `CLOSE_LIBRARY(handle)`: the handle stops being open; the result is what
the platform reported. -/
def CLOSE_LIBRARY (os : Platform) (handle : HandleType) (w : World) : Bool × World :=
  (os.close handle,
    { (w.emit (.close handle (os.close handle))) with opened := w.opened.erase handle })

/-- The macro `LOG_ERROR(filter, fmt, args...)`. -/
def LOG_ERROR (filter fmt : String) (args : List String) (w : World) : World :=
  w.emit (.log .error filter (format fmt args))

/-- The macro `LOG_TRACE(filter, fmt, args...)`. -/
def LOG_TRACE (filter fmt : String) (args : List String) (w : World) : World :=
  w.emit (.log .trace filter (format fmt args))

/-! ## `DynamicModuleUnloader`, `HandleHolder`, `DynamicModule` -/

/-- The call operator `DynamicModuleUnloader::operator()` (lines 69-82). -/
def DynamicModuleUnloader.call (os : Platform) (self : DynamicModuleUnloader)
    (handle : HandleType) (w : World) : World :=
  let (success, w) := CLOSE_LIBRARY os handle w
  if !success then
    LOG_ERROR "dynamicModule.loader" "Failed to unload (syscall) the shared library \"{}\""
      [self.path_] w
  else
    LOG_TRACE "dynamicModule.loader" "Lazy unloaded the shared library \"{}\"."
      [self.path_] w

/-- The destructor of `HandleHolder`: a `std::unique_ptr` invokes its deleter on the held
pointer if and only if that pointer is not null. -/
def HandleHolder.destroy (os : Platform) (self : HandleHolder) (w : World) : World :=
  match self.ptr with
  | some handle => self.deleter.call os handle w
  | none => w

/-- Moving out of a `HandleHolder` (`std::move` into a move constructor): the target
receives the pointer and the deleter, the source is left empty. The result is
(target, source afterwards). -/
def HandleHolder.move (self : HandleHolder) : HandleHolder × HandleHolder :=
  (⟨self.ptr, self.deleter⟩, ⟨none, self.deleter⟩)

/-- The constructor of `DynamicModule` (lines 98-106), parameters in the order of the
source, each stored by the member initialiser of the source. -/
def DynamicModule.new (handle : HandleHolder) (getScriptModuleRevisionHash : FnPtr)
    (addScripts : FnPtr) (getScriptModule : FnPtr) (getBuildDirective : FnPtr)
    (path : String) : DynamicModule :=
  { _handle := handle
    _getScriptModuleRevisionHash := getScriptModuleRevisionHash
    _addScripts := addScripts
    _getScriptModule := getScriptModule
    _getBuildDirective := getBuildDirective
    _path := path }

/-- The implicit destructor of `DynamicModule`: the object stops existing and its members
are destroyed, of which only `_handle` has an effect. -/
def DynamicModule.destroy (os : Platform) (self : DynamicModule) (w : World) : World :=
  self._handle.destroy os { w with objects := w.objects.erase self }

/-- A call through an entry point pointer returning a C string: the string the function
returns, and the call recorded. `none` stands for the undefined call through `nullptr`. -/
def callString (os : Platform) (fn : FnPtr) (w : World) : Option String × World :=
  match fn with
  | some f => (some (os.call f), w.emit (.invoke f))
  | none => (none, w)

/-- The const member `DynamicModule::GetScriptModuleRevisionHash` (lines 119-121). -/
def DynamicModule.GetScriptModuleRevisionHash (os : Platform) (self : DynamicModule)
    (w : World) : Option String × World :=
  callString os self._getScriptModuleRevisionHash w

/-- The const member `DynamicModule::AddScripts` (line 123): the entry point returns
nothing. -/
def DynamicModule.AddScripts (self : DynamicModule) (w : World) : Option Unit × World :=
  match self._addScripts with
  | some f => (some (), w.emit (.invoke f))
  | none => (none, w)

/-- The const member `DynamicModule::GetScriptModule` (line 125). -/
def DynamicModule.GetScriptModule (os : Platform) (self : DynamicModule) (w : World) :
    Option String × World :=
  callString os self._getScriptModule w

/-- The const member `DynamicModule::GetBuildDirective` (line 127). -/
def DynamicModule.GetBuildDirective (os : Platform) (self : DynamicModule) (w : World) :
    Option String × World :=
  callString os self._getBuildDirective w

/-- The const member `DynamicModule::GetModulePath` (line 129). -/
def DynamicModule.GetModulePath (self : DynamicModule) : String :=
  self._path

/-- The release hook a `std::shared_ptr<DynamicModule>` was built with: the ordinary
`delete`, or the static member `DynamicModule::ScheduleDelayedDelete`. -/
inductive Deleter where
  | default_delete
  | ScheduleDelayedDelete
  deriving DecidableEq

/-- A `std::shared_ptr<DynamicModule>`: the object it owns and its release hook. -/
structure shared_ptr where
  ptr : DynamicModule
  deleter : Deleter
  deriving DecidableEq

/-- The template `GetFunctionFromSharedLibrary` (lines 142-148): stores the looked-up
pointer in `fn` and answers whether it is not null. The result is (return value, `fn`,
world). -/
def GetFunctionFromSharedLibrary (os : Platform) (handle : HandleType) (name : String)
    (w : World) : Bool × FnPtr × World :=
  let (fn, w) := GET_FUNCTION_FROM_SHARED os handle name w
  (fn.isSome, fn, w)

/-- The static member `DynamicModule::CreateFromPath` (lines 150-189; the source spells
the qualified name with a single colon and the first constructor parameter
`HandlerHolder`, read here as `DynamicModule::CreateFromPath` and `HandleHolder`). The
four lookups are the operands of `&&`, evaluated left to right until one is false. On the
failing branch the local `holder` is destroyed when the function returns, after the error
has been logged; on the succeeding branch it has been moved into the new object and is
destroyed empty. -/
def DynamicModule.CreateFromPath (os : Platform) (path : String) (w : World) :
    Option shared_ptr × World :=
  match LOAD_SHARED_LIBRARY os path w with
  | (none, w) =>
      (none, LOG_ERROR "dynamicModule.loader" "Could not load the shared library \"{}\""
        [path] w)
  | (some handle, w) =>
      let holder : HandleHolder := ⟨some handle, DynamicModuleUnloader.mk path⟩
      let failed (w : World) : Option shared_ptr × World :=
        (none, holder.destroy os
          (LOG_ERROR "dynamicModule.loader"
            "Could not extract all required functions from the shared library \"{}\"!"
            [path] w))
      let (ok1, getScriptModuleRevisionHash, w) :=
        GetFunctionFromSharedLibrary os handle "GetScriptModuleRevisionHash" w
      if ok1 then
        let (ok2, addScripts, w) := GetFunctionFromSharedLibrary os handle "AddScripts" w
        if ok2 then
          let (ok3, getScriptModule, w) :=
            GetFunctionFromSharedLibrary os handle "GetScriptModule" w
          if ok3 then
            let (ok4, getBuildDirective, w) :=
              GetFunctionFromSharedLibrary os handle "GetBuildDirective" w
            if ok4 then
              let (moved, holder) := holder.move
              let module := DynamicModule.new moved getScriptModuleRevisionHash addScripts
                getScriptModule getBuildDirective path
              let w := { w with objects := w.objects ++ [module] }
              (some ⟨module, Deleter.ScheduleDelayedDelete⟩, holder.destroy os w)
            else failed w
          else failed w
        else failed w
      else failed w

/-! ## Observations on traces -/

/-- The names of the four required entry points, in the order `CreateFromPath` looks them
up (lines 169-175). -/
def requiredEntryPoints : List String :=
  ["GetScriptModuleRevisionHash", "AddScripts", "GetScriptModule", "GetBuildDirective"]

/-- The handles the close primitive was invoked on, in order. -/
def closeCalls : List Event → List HandleType
  | [] => []
  | .close h _ :: es => h :: closeCalls es
  | _ :: es => closeCalls es

/-- The symbol names that were looked up, in order. -/
def lookups : List Event → List String
  | [] => []
  | .resolve _ n _ :: es => n :: lookups es
  | _ :: es => lookups es

/-- The log entries of a trace, in order: level and message. -/
def logEntries : List Event → List (LogLevel × String)
  | [] => []
  | .log l _ m :: es => (l, m) :: logEntries es
  | _ :: es => logEntries es

/-- Whether `text` occurs in `message`. -/
def mentions (message text : String) : Bool :=
  message.data.tails.any (fun t => text.data.isPrefixOf t)

/-- The names looked up when lookups go through `names` in order and stop after the first
one that does not resolve. -/
def lookedUpUntilFailure (os : Platform) (handle : HandleType) : List String → List String
  | [] => []
  | n :: ns => n :: (if (os.resolve handle n).isSome then lookedUpUntilFailure os handle ns else [])

/-- What `DynamicModuleUnloader::operator()` appends to the trace for a handle and a path. -/
def unloadTrace (os : Platform) (path : String) (handle : HandleType) : List Event :=
  [Event.close handle (os.close handle),
   if os.close handle = true then
     Event.log .trace "dynamicModule.loader"
       (format "Lazy unloaded the shared library \"{}\"." [path])
   else
     Event.log .error "dynamicModule.loader"
       (format "Failed to unload (syscall) the shared library \"{}\"" [path])]

/-! ## Concrete platforms used to evaluate the model -/

/-- A platform on which `/modules/libmod_example.so` loads as handle `7` and exports all
four entry points; closing succeeds. -/
def completePlatform : Platform where
  load := fun p => if p = "/modules/libmod_example.so" then some 7 else none
  resolve := fun _ n =>
    if n = "GetScriptModuleRevisionHash" then some 101
    else if n = "AddScripts" then some 102
    else if n = "GetScriptModule" then some 103
    else if n = "GetBuildDirective" then some 104
    else none
  close := fun _ => true
  call := fun f =>
    if f = 101 then "a1b2c3" else if f = 103 then "example" else if f = 104 then "Release"
    else ""

/-- A platform on which `/modules/libmod_example.so` loads as handle `7` but does not
export `GetScriptModuleRevisionHash`; the other three entry points resolve; closing
succeeds. -/
def incompletePlatform : Platform where
  load := fun p => if p = "/modules/libmod_example.so" then some 7 else none
  resolve := fun _ n =>
    if n = "AddScripts" then some 102
    else if n = "GetScriptModule" then some 103
    else if n = "GetBuildDirective" then some 104
    else none
  close := fun _ => true
  call := fun _ => ""

/-- The descriptor `CreateFromPath` builds for `/modules/libmod_example.so` on
`completePlatform`. -/
def exampleModule : DynamicModule :=
  DynamicModule.new ⟨some 7, ⟨"/modules/libmod_example.so"⟩⟩ (some 101) (some 102) (some 103)
    (some 104) "/modules/libmod_example.so"

/-- The world before anything happened. -/
def emptyWorld : World := ⟨[], [], []⟩

/-! ## Deferred reclamation -/

/-- Modelled from the spec: the state of the loader registry that reclamation needs. The
class that implements `DynamicModuleLoader` is not among the sources; the spec gives it a
Reclaim Queue, "an ordered collection of Module Descriptors whose shared-ownership count
reached zero but whose physical unload has not yet been performed". -/
structure LoaderState where
  world : World
  reclaimQueue : List DynamicModule
  deriving DecidableEq

/-- Modelled from the spec: the body of `DynamicModule::ScheduleDelayedDelete`, which the
sources only declare (line 117). By the spec it "does not destroy the Module Descriptor
inline. It instead enqueues the descriptor (still fully intact, including its still-open
Library Handle) onto the Reclaim Queue and returns immediately". -/
def DynamicModule.ScheduleDelayedDelete (module : DynamicModule) (s : LoaderState) :
    LoaderState :=
  { s with reclaimQueue := s.reclaimQueue ++ [module] }

/-- The release of the last owner of a `std::shared_ptr<DynamicModule>`: the release hook
the pointer was built with is invoked on the owned object; the ordinary hook destroys the
object on the spot. -/
def shared_ptr.releaseLast (os : Platform) (self : shared_ptr) (s : LoaderState) :
    LoaderState :=
  match self.deleter with
  | .default_delete => { s with world := self.ptr.destroy os s.world }
  | .ScheduleDelayedDelete => DynamicModule.ScheduleDelayedDelete self.ptr s

/-- Modelled from the spec: the reclaiming half of `DynamicModuleLoader::Update`, whose
implementation is not among the sources (the header gives the base class an empty body).
By the spec, on each call it "drains and physically closes every Library Handle belonging
to a Reclaim Queue entry": the queued descriptors are destroyed in order and the queue is
left empty. The other half of `Update`, looking for new module binaries, is not
modelled. -/
def DynamicModuleLoader.Update (os : Platform) (s : LoaderState) : LoaderState :=
  { world := s.reclaimQueue.foldl (fun w d => d.destroy os w) s.world
    reclaimQueue := [] }

/-- The handles held by the descriptors of a reclaim queue, in order. -/
def queuedHandles (q : List DynamicModule) : List HandleType :=
  q.filterMap (fun d => d._handle.ptr)

end Modules

/-! # Theorems -/
namespace Realms

/-- C8 (the code at the failing input): with the option enabled and `IsInNetwork` read as
subnet membership, the client `172.16.0.1`, inside the RFC 1918 network `172.16.0.0/12`, is
not private for the code and, outside the local subnet of the realm, is given
`ExternalAddress`; the client `172.1.2.3`, outside every RFC 1918 network, is private for
the code. The second network of the code is `172.12.0.0` under `255.240.0.0`, which is
`172.0.0.0/12`. -/
theorem clientAddrIsPrivate_misses_172_16 :
    isRfc1918_spec (make_address_v4 172 16 0 1) = true ∧
    clientAddrIsPrivate IsInNetwork true (.v4 (make_address_v4 172 16 0 1)) = false ∧
    GetAddressForClient IsInNetwork true
        exampleRealm
        (.v4 (make_address_v4 172 16 0 1)) =
      some ⟨.v4 (make_address_v4 203 0 113 5), 8085⟩ ∧
    isRfc1918_spec (make_address_v4 172 1 2 3) = false ∧
    clientAddrIsPrivate IsInNetwork true (.v4 (make_address_v4 172 1 2 3)) = true ∧
    make_address_v4 172 12 0 0 &&& make_address_v4 255 240 0 0 = make_address_v4 172 0 0 0 := by
  decide

/-- C9 (refuted as stated): for the loopback IPv4 client `127.0.0.1` and a realm whose
`LocalAddress` is the IPv6 loopback `::1`, the specification selects the client's own
address, while the code evaluates `LocalAddress->to_v4()` and leaves by exception, so no
endpoint is returned. -/
theorem GetAddressForClient_throws_for_ipv6_local_address :
    selectedAddress_spec IsInNetwork false
        ipv6LocalRealm
        (.v4 (make_address_v4 127 0 0 1)) = .v4 (make_address_v4 127 0 0 1) ∧
    GetAddressForClient IsInNetwork false
        ipv6LocalRealm
        (.v4 (make_address_v4 127 0 0 1)) = none := by
  decide

/-- C9 (as amended): for every client address and realm configuration in which
`LocalAddress` and `LocalSubnetMask` are IPv4 whenever the client is IPv4,
`Realm::GetAddressForClient` returns an endpoint whose port is the realm's `Port` and whose
address is: the client's own address if the client is loopback and `LocalAddress` or
`ExternalAddress` is loopback; otherwise `LocalAddress` if the client is loopback, or is
IPv4 inside the `LocalAddress`/`LocalSubnetMask` network, or is private (option enabled);
otherwise `ExternalAddress`. In particular every non-loopback IPv6 client receives
`ExternalAddress` whatever the configuration. -/
theorem GetAddressForClient_selects
    (inNet : address_v4 → address_v4 → address_v4 → Bool) (anyPrivateClientIsLocal : Bool)
    (realm : Realm) (clientAddr : address)
    (h : clientAddr.is_v4 = true →
      realm.LocalAddress.is_v4 = true ∧ realm.LocalSubnetMask.is_v4 = true) :
    GetAddressForClient inNet anyPrivateClientIsLocal realm clientAddr =
        some ⟨selectedAddress_spec inNet anyPrivateClientIsLocal realm clientAddr, realm.Port⟩ ∧
      (clientAddr.is_v4 = false → clientAddr.is_loopback = false →
        GetAddressForClient inNet anyPrivateClientIsLocal realm clientAddr =
          some ⟨realm.ExternalAddress, realm.Port⟩) := by
  obtain ⟨ext, loc, mask, port⟩ := realm
  cases clientAddr with
  | v6 a =>
      refine ⟨?_, ?_⟩
      · simp only [GetAddressForClient, clientAddrIsLocal, clientAddrIsPrivate,
          selectedAddress_spec, insideLocalNetwork_spec]
        by_cases h1 : (address.v6 a).is_loopback = true <;>
          by_cases h2 : loc.is_loopback = true <;>
          by_cases h3 : ext.is_loopback = true <;> simp [h1, h2, h3]
      · intro _ h1
        simp [GetAddressForClient, clientAddrIsLocal, clientAddrIsPrivate, h1]
  | v4 c =>
      obtain ⟨hl, hm⟩ := h rfl
      cases loc with
      | v6 _ => simp [address.is_v4] at hl
      | v4 l =>
        cases mask with
        | v6 _ => simp [address.is_v4] at hm
        | v4 m =>
          refine ⟨?_, fun h0 => by simp [address.is_v4] at h0⟩
          simp only [GetAddressForClient, clientAddrIsLocal, address.to_v4,
            selectedAddress_spec, insideLocalNetwork_spec]
          by_cases h1 : (address.v4 c).is_loopback = true <;>
            by_cases h2 : (address.v4 l).is_loopback = true <;>
            by_cases h3 : ext.is_loopback = true <;>
            by_cases h4 : inNet l m c = true <;>
            by_cases h5 : clientAddrIsPrivate inNet anyPrivateClientIsLocal (.v4 c) = true <;>
            simp [h1, h2, h3, h4, h5]

/-- Witness for C9 (as amended): an IPv4 client of the local subnet of an all-IPv4 realm is
given the address the specification selects, and a non-loopback IPv6 client is given
`ExternalAddress`. -/
theorem GetAddressForClient_selects_witness :
    ((address.v4 (make_address_v4 192 168 1 77)).is_v4 = true →
        exampleRealm.LocalAddress.is_v4 = true ∧ exampleRealm.LocalSubnetMask.is_v4 = true) ∧
      GetAddressForClient IsInNetwork true exampleRealm (.v4 (make_address_v4 192 168 1 77)) =
        some ⟨selectedAddress_spec IsInNetwork true exampleRealm
          (.v4 (make_address_v4 192 168 1 77)), exampleRealm.Port⟩ ∧
      selectedAddress_spec IsInNetwork true exampleRealm
          (.v4 (make_address_v4 192 168 1 77)) = exampleRealm.LocalAddress ∧
      GetAddressForClient IsInNetwork true ipv6LocalRealm (.v6 5) =
        some ⟨ipv6LocalRealm.ExternalAddress, ipv6LocalRealm.Port⟩ :=
  ⟨by decide,
    (GetAddressForClient_selects IsInNetwork true exampleRealm
      (.v4 (make_address_v4 192 168 1 77)) (by decide)).1,
    by decide,
    (GetAddressForClient_selects IsInNetwork true ipv6LocalRealm (.v6 5) (by decide)).2
      (by decide) (by decide)⟩

end Realms

namespace Modules

theorem unloader_call_eq (os : Platform) (self : DynamicModuleUnloader) (handle : HandleType)
    (w : World) :
    self.call os handle w =
      { events := w.events ++ unloadTrace os self.path_ handle
        opened := w.opened.erase handle
        objects := w.objects } := by
  cases hc : os.close handle <;>
    simp [DynamicModuleUnloader.call, CLOSE_LIBRARY, LOG_ERROR, LOG_TRACE, World.emit,
      unloadTrace, hc]

theorem CreateFromPath_load_failed (os : Platform) (path : String) (w : World)
    (hl : os.load path = none) :
    DynamicModule.CreateFromPath os path w =
      (none,
        { events := w.events ++ [Event.load path none,
            Event.log .error "dynamicModule.loader"
              (format "Could not load the shared library \"{}\"" [path])]
          opened := w.opened
          objects := w.objects }) := by
  simp [DynamicModule.CreateFromPath, LOAD_SHARED_LIBRARY, hl, LOG_ERROR, World.emit]

theorem CreateFromPath_resolved (os : Platform) (path : String) (w : World)
    (h : HandleType) (f1 f2 f3 f4 : Fn) (hl : os.load path = some h)
    (h1 : os.resolve h "GetScriptModuleRevisionHash" = some f1)
    (h2 : os.resolve h "AddScripts" = some f2)
    (h3 : os.resolve h "GetScriptModule" = some f3)
    (h4 : os.resolve h "GetBuildDirective" = some f4) :
    DynamicModule.CreateFromPath os path w =
      (some ⟨⟨⟨some h, ⟨path⟩⟩, some f1, some f2, some f3, some f4, path⟩,
          Deleter.ScheduleDelayedDelete⟩,
        { events := w.events ++ [Event.load path (some h),
            Event.resolve h "GetScriptModuleRevisionHash" (some f1),
            Event.resolve h "AddScripts" (some f2),
            Event.resolve h "GetScriptModule" (some f3),
            Event.resolve h "GetBuildDirective" (some f4)]
          opened := h :: w.opened
          objects := w.objects ++
            [⟨⟨some h, ⟨path⟩⟩, some f1, some f2, some f3, some f4, path⟩] }) := by
  simp [DynamicModule.CreateFromPath, LOAD_SHARED_LIBRARY, hl, World.emit,
    GetFunctionFromSharedLibrary, GET_FUNCTION_FROM_SHARED, h1, h2, h3, h4,
    HandleHolder.move, HandleHolder.destroy, DynamicModule.new]

theorem CreateFromPath_unresolved (os : Platform) (path : String) (w : World)
    (h : HandleType) (hl : os.load path = some h)
    (hr : requiredEntryPoints.all (fun n => (os.resolve h n).isSome) = false) :
    DynamicModule.CreateFromPath os path w =
      (none,
        { events := w.events ++ Event.load path (some h) ::
            ((lookedUpUntilFailure os h requiredEntryPoints).map
                (fun n => Event.resolve h n (os.resolve h n)) ++
              Event.log .error "dynamicModule.loader"
                (format "Could not extract all required functions from the shared library \"{}\"!"
                  [path]) :: unloadTrace os path h)
          opened := w.opened
          objects := w.objects }) := by
  simp only [requiredEntryPoints, List.all_cons, List.all_nil, Bool.and_true] at hr
  cases h1 : os.resolve h "GetScriptModuleRevisionHash" <;>
    cases h2 : os.resolve h "AddScripts" <;>
    cases h3 : os.resolve h "GetScriptModule" <;>
    cases h4 : os.resolve h "GetBuildDirective" <;>
    simp [h1, h2, h3, h4] at hr <;>
    simp [DynamicModule.CreateFromPath, LOAD_SHARED_LIBRARY, hl, World.emit,
      GetFunctionFromSharedLibrary, GET_FUNCTION_FROM_SHARED, h1, h2, h3, h4,
      HandleHolder.destroy, unloader_call_eq, LOG_ERROR, lookedUpUntilFailure,
      requiredEntryPoints]

theorem mentions_of_data_eq (message text : String) (a b : List Char)
    (h : message.data = a ++ (text.data ++ b)) : mentions message text = true := by
  unfold mentions
  rw [List.any_eq_true]
  refine ⟨text.data ++ b, ?_, ?_⟩
  · rw [List.mem_tails, h]
    exact List.suffix_append _ _
  · rw [List.isPrefixOf_iff_prefix]
    exact List.prefix_append _ _

theorem mentions_unload_failure (p : String) :
    mentions (format "Failed to unload (syscall) the shared library \"{}\"" [p]) p = true :=
  mentions_of_data_eq _ _ "Failed to unload (syscall) the shared library \"".data "\"".data
    (by simp [format, formatChars])

theorem mentions_unload_success (p : String) :
    mentions (format "Lazy unloaded the shared library \"{}\"." [p]) p = true :=
  mentions_of_data_eq _ _ "Lazy unloaded the shared library \"".data "\".".data
    (by simp [format, formatChars])

theorem mentions_extract_failure (p : String) :
    mentions (format "Could not extract all required functions from the shared library \"{}\"!"
      [p]) p = true :=
  mentions_of_data_eq _ _
    "Could not extract all required functions from the shared library \"".data "\"!".data
    (by simp [format, formatChars])

theorem closeCalls_append (xs ys : List Event) :
    closeCalls (xs ++ ys) = closeCalls xs ++ closeCalls ys := by
  induction xs with
  | nil => rfl
  | cons e es ih => cases e <;> simp [closeCalls, ih]

theorem logEntries_append (xs ys : List Event) :
    logEntries (xs ++ ys) = logEntries xs ++ logEntries ys := by
  induction xs with
  | nil => rfl
  | cons e es ih => cases e <;> simp [logEntries, ih]

theorem closeCalls_resolves (os : Platform) (h : HandleType) (ns : List String) :
    closeCalls (ns.map (fun n => Event.resolve h n (os.resolve h n))) = [] := by
  induction ns with
  | nil => rfl
  | cons n ns ih => simpa [closeCalls] using ih

theorem closeCalls_unloadTrace (os : Platform) (p : String) (h : HandleType) :
    closeCalls (unloadTrace os p h) = [h] := by
  cases hc : os.close h <;> simp [unloadTrace, closeCalls, hc]

theorem closeCalls_failure_trace (os : Platform) (path : String) (h : HandleType)
    (before : List Event) (ns : List String) (message : String) :
    closeCalls (before ++ Event.load path (some h) ::
      (ns.map (fun n => Event.resolve h n (os.resolve h n)) ++
        Event.log .error "dynamicModule.loader" message :: unloadTrace os path h)) =
      closeCalls before ++ [h] := by
  rw [closeCalls_append]
  congr 1
  show closeCalls (ns.map (fun n => Event.resolve h n (os.resolve h n)) ++
        Event.log .error "dynamicModule.loader" message :: unloadTrace os path h) = [h]
  rw [closeCalls_append, closeCalls_resolves]
  exact closeCalls_unloadTrace os path h

theorem all_resolved_iff (os : Platform) (h : HandleType) :
    requiredEntryPoints.all (fun n => (os.resolve h n).isSome) = true ↔
      ∃ f1 f2 f3 f4, os.resolve h "GetScriptModuleRevisionHash" = some f1 ∧
        os.resolve h "AddScripts" = some f2 ∧ os.resolve h "GetScriptModule" = some f3 ∧
        os.resolve h "GetBuildDirective" = some f4 := by
  simp only [requiredEntryPoints, List.all_cons, List.all_nil, Bool.and_true,
    Bool.and_eq_true, Option.isSome_iff_exists]
  constructor
  · rintro ⟨⟨f1, h1⟩, ⟨f2, h2⟩, ⟨f3, h3⟩, ⟨f4, h4⟩⟩
    exact ⟨f1, f2, f3, f4, h1, h2, h3, h4⟩
  · rintro ⟨f1, f2, f3, f4, h1, h2, h3, h4⟩
    exact ⟨⟨f1, h1⟩, ⟨f2, h2⟩, ⟨f3, h3⟩, ⟨f4, h4⟩⟩

/-- C1: `DynamicModule::CreateFromPath` returns a non-empty result if and only if the load
returned a handle and all four symbols `GetScriptModuleRevisionHash`, `AddScripts`,
`GetScriptModule` and `GetBuildDirective` resolved to non-null, whatever the platform
primitives answer; the set of constructed `DynamicModule` objects grows by exactly the
returned object, so in every other case the result is empty and no object is
constructed. -/
theorem CreateFromPath_all_or_nothing (os : Platform) (path : String) (w : World) :
    ((DynamicModule.CreateFromPath os path w).1.isSome = true ↔
      ∃ h f1 f2 f3 f4, os.load path = some h ∧
        os.resolve h "GetScriptModuleRevisionHash" = some f1 ∧
        os.resolve h "AddScripts" = some f2 ∧ os.resolve h "GetScriptModule" = some f3 ∧
        os.resolve h "GetBuildDirective" = some f4) ∧
    (DynamicModule.CreateFromPath os path w).2.objects =
      w.objects ++ ((DynamicModule.CreateFromPath os path w).1.map (·.ptr)).toList := by
  cases hl : os.load path with
  | none => simp [CreateFromPath_load_failed os path w hl]
  | some h =>
    cases hr : requiredEntryPoints.all (fun n => (os.resolve h n).isSome) with
    | false =>
      have hn : ¬ ∃ f1 f2 f3 f4, os.resolve h "GetScriptModuleRevisionHash" = some f1 ∧
          os.resolve h "AddScripts" = some f2 ∧ os.resolve h "GetScriptModule" = some f3 ∧
          os.resolve h "GetBuildDirective" = some f4 := by
        rw [← all_resolved_iff, hr]; simp
      rw [CreateFromPath_unresolved os path w h hl hr]
      refine ⟨⟨fun hc => by simp at hc, ?_⟩, by simp⟩
      rintro ⟨h', f1, f2, f3, f4, hh, h1, h2, h3, h4⟩
      cases hh
      exact absurd ⟨f1, f2, f3, f4, h1, h2, h3, h4⟩ hn
    | true =>
      obtain ⟨f1, f2, f3, f4, h1, h2, h3, h4⟩ := (all_resolved_iff os h).1 hr
      rw [CreateFromPath_resolved os path w h f1 f2 f3 f4 hl h1 h2 h3 h4]
      exact ⟨⟨fun _ => ⟨h, f1, f2, f3, f4, rfl, h1, h2, h3, h4⟩, fun _ => rfl⟩, rfl⟩

/-- C2: over the explicit OS state (the open library handles): if `CreateFromPath` returns
the empty result then either the load failed, nothing was opened and the close primitive
was not invoked, or a handle was opened and the close primitive was invoked during the
call exactly once, on that handle, and the open handles are as before the call; and if it
returns a descriptor then the close primitive was not invoked during the call and the
opened handle is open and owned by the returned descriptor. -/
theorem CreateFromPath_handle_released_or_owned (os : Platform) (path : String) (w : World) :
    ((DynamicModule.CreateFromPath os path w).1 = none →
      (os.load path = none ∧
          closeCalls (DynamicModule.CreateFromPath os path w).2.events = closeCalls w.events ∧
          (DynamicModule.CreateFromPath os path w).2.opened = w.opened) ∨
      (∃ h, os.load path = some h ∧
          closeCalls (DynamicModule.CreateFromPath os path w).2.events =
            closeCalls w.events ++ [h] ∧
          (DynamicModule.CreateFromPath os path w).2.opened = w.opened)) ∧
    (∀ sp, (DynamicModule.CreateFromPath os path w).1 = some sp →
      closeCalls (DynamicModule.CreateFromPath os path w).2.events = closeCalls w.events ∧
      ∃ h, os.load path = some h ∧ sp.ptr._handle.ptr = some h ∧
        (DynamicModule.CreateFromPath os path w).2.opened = h :: w.opened) := by
  cases hl : os.load path with
  | none =>
    rw [CreateFromPath_load_failed os path w hl]
    refine ⟨fun _ => Or.inl ⟨rfl, ?_, rfl⟩, fun sp hsp => by simp at hsp⟩
    simp [closeCalls_append, closeCalls]
  | some h =>
    cases hr : requiredEntryPoints.all (fun n => (os.resolve h n).isSome) with
    | false =>
      rw [CreateFromPath_unresolved os path w h hl hr]
      refine ⟨fun _ => Or.inr ⟨h, rfl, ?_, rfl⟩, fun sp hsp => by simp at hsp⟩
      exact closeCalls_failure_trace os path h w.events _ _
    | true =>
      obtain ⟨f1, f2, f3, f4, h1, h2, h3, h4⟩ := (all_resolved_iff os h).1 hr
      rw [CreateFromPath_resolved os path w h f1 f2 f3 f4 hl h1 h2 h3 h4]
      refine ⟨fun hc => by simp at hc, fun sp hsp => ⟨?_, h, rfl, ?_, rfl⟩⟩
      · simp [closeCalls_append, closeCalls]
      · simp only [Option.some.injEq] at hsp
        rw [← hsp]

/-- Witness for C2: on a platform where the library loads but one entry point is missing
the result is empty, the handle `7` was closed once and nothing remains open; where all
entry points resolve, the descriptor owns the open handle `7`. -/
theorem CreateFromPath_handle_released_or_owned_witness :
    ((DynamicModule.CreateFromPath incompletePlatform "/modules/libmod_example.so" emptyWorld).1
        = none ∧
      ((incompletePlatform.load "/modules/libmod_example.so" = none ∧
          closeCalls (DynamicModule.CreateFromPath incompletePlatform
            "/modules/libmod_example.so" emptyWorld).2.events = closeCalls emptyWorld.events ∧
          (DynamicModule.CreateFromPath incompletePlatform
            "/modules/libmod_example.so" emptyWorld).2.opened = emptyWorld.opened) ∨
       (∃ h, incompletePlatform.load "/modules/libmod_example.so" = some h ∧
          closeCalls (DynamicModule.CreateFromPath incompletePlatform
            "/modules/libmod_example.so" emptyWorld).2.events =
              closeCalls emptyWorld.events ++ [h] ∧
          (DynamicModule.CreateFromPath incompletePlatform
            "/modules/libmod_example.so" emptyWorld).2.opened = emptyWorld.opened))) ∧
    ((DynamicModule.CreateFromPath completePlatform "/modules/libmod_example.so" emptyWorld).1
        = some ⟨exampleModule, Deleter.ScheduleDelayedDelete⟩ ∧
      closeCalls (DynamicModule.CreateFromPath completePlatform
        "/modules/libmod_example.so" emptyWorld).2.events = closeCalls emptyWorld.events ∧
      ∃ h, completePlatform.load "/modules/libmod_example.so" = some h ∧
        exampleModule._handle.ptr = some h ∧
        (DynamicModule.CreateFromPath completePlatform
          "/modules/libmod_example.so" emptyWorld).2.opened = h :: emptyWorld.opened) :=
  ⟨⟨by decide,
    (CreateFromPath_handle_released_or_owned incompletePlatform "/modules/libmod_example.so"
      emptyWorld).1 (by decide)⟩,
   ⟨by decide,
    (CreateFromPath_handle_released_or_owned completePlatform "/modules/libmod_example.so"
      emptyWorld).2 ⟨exampleModule, Deleter.ScheduleDelayedDelete⟩ (by decide)⟩⟩

/-- C6: closing a Library Handle (`DynamicModuleUnloader::operator()`) appends to the
trace exactly one invocation of the platform unload primitive, on that handle, followed by
exactly one log entry whose message names the path, at trace level if the primitive
reported success and at error level if it reported failure; the operation is total (it
cannot raise) and invokes the primitive once (no retry). -/
theorem unloader_closes_once_and_logs (os : Platform) (self : DynamicModuleUnloader)
    (handle : HandleType) (w : World) :
    ∃ message,
      (self.call os handle w).events =
        w.events ++ [Event.close handle (os.close handle),
          Event.log (if os.close handle = true then LogLevel.trace else LogLevel.error)
            "dynamicModule.loader" message] ∧
      mentions message self.path_ = true ∧
      closeCalls (self.call os handle w).events = closeCalls w.events ++ [handle] ∧
      logEntries (self.call os handle w).events =
        logEntries w.events ++
          [(if os.close handle = true then LogLevel.trace else LogLevel.error, message)] := by
  rw [unloader_call_eq]
  cases hc : os.close handle
  · refine ⟨format "Failed to unload (syscall) the shared library \"{}\"" [self.path_],
      by simp [unloadTrace, hc], mentions_unload_failure _, ?_, ?_⟩
    · simp [closeCalls_append, unloadTrace, hc, closeCalls]
    · simp [logEntries_append, unloadTrace, hc, logEntries]
  · refine ⟨format "Lazy unloaded the shared library \"{}\"." [self.path_],
      by simp [unloadTrace, hc], mentions_unload_success _, ?_, ?_⟩
    · simp [closeCalls_append, unloadTrace, hc, closeCalls]
    · simp [logEntries_append, unloadTrace, hc, logEntries]

/-- C5: for a descriptor `d` returned by `CreateFromPath(P)`: `d.GetModulePath()` is `P`;
`d.GetScriptModuleRevisionHash()`, `d.GetScriptModule()` and `d.GetBuildDirective()` return
what the functions resolved under these very names return, and `d.AddScripts()` calls the
function resolved under `AddScripts`; each accessor only adds the call to the trace and
leaves the open handles and the constructed objects, the descriptor among them, as they
were. -/
theorem accessors_forward_to_resolved_entry_points (os : Platform) (path : String)
    (w w1 : World) (sp : shared_ptr)
    (hc : DynamicModule.CreateFromPath os path w = (some sp, w1)) :
    sp.ptr.GetModulePath = path ∧ sp.ptr ∈ w1.objects ∧
    ∃ h f1 f2 f3 f4, os.load path = some h ∧
      os.resolve h "GetScriptModuleRevisionHash" = some f1 ∧
      os.resolve h "AddScripts" = some f2 ∧
      os.resolve h "GetScriptModule" = some f3 ∧
      os.resolve h "GetBuildDirective" = some f4 ∧
      ∀ v : World,
        sp.ptr.GetScriptModuleRevisionHash os v =
          (some (os.call f1), ⟨v.events ++ [Event.invoke f1], v.opened, v.objects⟩) ∧
        sp.ptr.AddScripts v =
          (some (), ⟨v.events ++ [Event.invoke f2], v.opened, v.objects⟩) ∧
        sp.ptr.GetScriptModule os v =
          (some (os.call f3), ⟨v.events ++ [Event.invoke f3], v.opened, v.objects⟩) ∧
        sp.ptr.GetBuildDirective os v =
          (some (os.call f4), ⟨v.events ++ [Event.invoke f4], v.opened, v.objects⟩) := by
  cases hl : os.load path with
  | none => rw [CreateFromPath_load_failed os path w hl] at hc; simp at hc
  | some h =>
    cases hr : requiredEntryPoints.all (fun n => (os.resolve h n).isSome) with
    | false => rw [CreateFromPath_unresolved os path w h hl hr] at hc; simp at hc
    | true =>
      obtain ⟨f1, f2, f3, f4, h1, h2, h3, h4⟩ := (all_resolved_iff os h).1 hr
      rw [CreateFromPath_resolved os path w h f1 f2 f3 f4 hl h1 h2 h3 h4] at hc
      simp only [Prod.mk.injEq, Option.some.injEq] at hc
      obtain ⟨hsp, hw⟩ := hc
      subst hsp hw
      refine ⟨rfl, by simp, h, f1, f2, f3, f4, rfl, h1, h2, h3, h4, fun v => ?_⟩
      simp [DynamicModule.GetScriptModuleRevisionHash, DynamicModule.AddScripts,
        DynamicModule.GetScriptModule, DynamicModule.GetBuildDirective, callString,
        World.emit]

/-- Witness for C5: on the platform exporting all four entry points the descriptor
loaded from `/modules/libmod_example.so` forwards each accessor to its own entry point. -/
theorem accessors_forward_to_resolved_entry_points_witness :
    ∃ sp w1,
      DynamicModule.CreateFromPath completePlatform "/modules/libmod_example.so" emptyWorld =
        (some sp, w1) ∧
      sp.ptr.GetModulePath = "/modules/libmod_example.so" ∧
      (sp.ptr.GetScriptModule completePlatform w1).1 = some "example" :=
  ⟨_, _, rfl,
    (accessors_forward_to_resolved_entry_points completePlatform
      "/modules/libmod_example.so" emptyWorld _ _ rfl).1, by decide⟩

theorem lookups_append (xs ys : List Event) :
    lookups (xs ++ ys) = lookups xs ++ lookups ys := by
  induction xs with
  | nil => rfl
  | cons e es ih => cases e <;> simp [lookups, ih]

theorem lookups_resolves (os : Platform) (h : HandleType) (ns : List String) :
    lookups (ns.map (fun n => Event.resolve h n (os.resolve h n))) = ns := by
  induction ns with
  | nil => rfl
  | cons n ns ih => simpa [lookups] using ih

theorem lookups_unloadTrace (os : Platform) (p : String) (h : HandleType) :
    lookups (unloadTrace os p h) = [] := by
  cases hc : os.close h <;> simp [unloadTrace, lookups, hc]

theorem lookups_failure_trace (os : Platform) (path : String) (h : HandleType)
    (before : List Event) (ns : List String) (message : String) :
    lookups (before ++ Event.load path (some h) ::
      (ns.map (fun n => Event.resolve h n (os.resolve h n)) ++
        Event.log .error "dynamicModule.loader" message :: unloadTrace os path h)) =
      lookups before ++ ns := by
  rw [lookups_append]
  congr 1
  show lookups (ns.map (fun n => Event.resolve h n (os.resolve h n)) ++
        Event.log .error "dynamicModule.loader" message :: unloadTrace os path h) = ns
  rw [lookups_append, lookups_resolves]
  show ns ++ lookups (unloadTrace os path h) = ns
  rw [lookups_unloadTrace, List.append_nil]

/-- C7 (refuted as stated): on a platform where the library loads and only
`GetScriptModuleRevisionHash` is missing, `CreateFromPath` performs that single lookup and
stops (`AddScripts`, `GetScriptModule` and `GetBuildDirective` are never looked up), and
no log entry of the call names the unresolved symbol. -/
theorem CreateFromPath_stops_at_first_unresolved_and_does_not_name_it :
    incompletePlatform.load "/modules/libmod_example.so" = some 7 ∧
    incompletePlatform.resolve 7 "GetScriptModuleRevisionHash" = none ∧
    lookups (DynamicModule.CreateFromPath incompletePlatform "/modules/libmod_example.so"
      emptyWorld).2.events = ["GetScriptModuleRevisionHash"] ∧
    (logEntries (DynamicModule.CreateFromPath incompletePlatform "/modules/libmod_example.so"
      emptyWorld).2.events).all
        (fun e => !mentions e.2 "GetScriptModuleRevisionHash") = true := by
  decide

/-- C7 (as amended): for every path whose library loads but for which at least one of the
four required entry points fails to resolve, `CreateFromPath` returns the empty result and
logs, at error level, the fixed message "Could not extract all required functions from the
shared library" with the path, which names the path; and the entry points are looked up in
the fixed order `GetScriptModuleRevisionHash`, `AddScripts`, `GetScriptModule`,
`GetBuildDirective` up to and including the first one that fails to resolve, the ones
after it not being looked up. -/
theorem CreateFromPath_unresolved_logs_path_and_stops (os : Platform) (path : String)
    (w : World) (h : HandleType) (hl : os.load path = some h)
    (hr : requiredEntryPoints.all (fun n => (os.resolve h n).isSome) = false) :
    (DynamicModule.CreateFromPath os path w).1 = none ∧
    Event.log .error "dynamicModule.loader"
        (format "Could not extract all required functions from the shared library \"{}\"!"
          [path]) ∈ (DynamicModule.CreateFromPath os path w).2.events ∧
    mentions
        (format "Could not extract all required functions from the shared library \"{}\"!"
          [path]) path = true ∧
    lookups (DynamicModule.CreateFromPath os path w).2.events =
      lookups w.events ++ lookedUpUntilFailure os h requiredEntryPoints := by
  rw [CreateFromPath_unresolved os path w h hl hr]
  refine ⟨rfl, by simp, mentions_extract_failure path, ?_⟩
  exact lookups_failure_trace os path h w.events _ _

/-- Witness for C7 (as amended): on the platform that lacks `GetScriptModuleRevisionHash`
the error naming `/modules/libmod_example.so` is logged and exactly one lookup is made. -/
theorem CreateFromPath_unresolved_logs_path_and_stops_witness :
    incompletePlatform.load "/modules/libmod_example.so" = some 7 ∧
    requiredEntryPoints.all (fun n => (incompletePlatform.resolve 7 n).isSome) = false ∧
    lookups (DynamicModule.CreateFromPath incompletePlatform "/modules/libmod_example.so"
        emptyWorld).2.events =
      lookups emptyWorld.events ++ lookedUpUntilFailure incompletePlatform 7 requiredEntryPoints :=
  ⟨by decide, by decide,
    (CreateFromPath_unresolved_logs_path_and_stops incompletePlatform
      "/modules/libmod_example.so" emptyWorld 7 (by decide) (by decide)).2.2.2⟩

theorem destroy_closeCalls (os : Platform) (d : DynamicModule) (w : World) :
    closeCalls (d.destroy os w).events = closeCalls w.events ++ d._handle.ptr.toList := by
  unfold DynamicModule.destroy HandleHolder.destroy
  cases hp : d._handle.ptr with
  | none => simp
  | some h => simp [unloader_call_eq, closeCalls_append, closeCalls_unloadTrace]

theorem drain_closeCalls (os : Platform) (q : List DynamicModule) (w : World) :
    closeCalls (q.foldl (fun w d => d.destroy os w) w).events =
      closeCalls w.events ++ queuedHandles q := by
  induction q generalizing w with
  | nil => simp [queuedHandles]
  | cons d q ih =>
    rw [List.foldl_cons, ih, destroy_closeCalls]
    cases hp : d._handle.ptr <;> simp [queuedHandles, hp]

/-- C4: for a descriptor returned by `CreateFromPath`, the shared handle carries
`DynamicModule::ScheduleDelayedDelete` as its release hook; releasing the last owner leaves
the world untouched (nothing is closed, the descriptor is intact and its handle still open)
and only appends the descriptor to the reclaim queue; the close primitive is invoked on its
handle by the following `Update()`, after the handles queued before it. -/
theorem release_defers_close_to_update (os : Platform) (path : String) (w w1 : World)
    (sp : shared_ptr) (q : List DynamicModule)
    (hc : DynamicModule.CreateFromPath os path w = (some sp, w1)) :
    sp.deleter = Deleter.ScheduleDelayedDelete ∧
    sp.releaseLast os ⟨w1, q⟩ = ⟨w1, q ++ [sp.ptr]⟩ ∧
    closeCalls w1.events = closeCalls w.events ∧
    ∃ h, sp.ptr._handle.ptr = some h ∧ h ∈ w1.opened ∧ sp.ptr ∈ w1.objects ∧
      closeCalls (DynamicModuleLoader.Update os (sp.releaseLast os ⟨w1, q⟩)).world.events =
        closeCalls w1.events ++ queuedHandles q ++ [h] ∧
      (DynamicModuleLoader.Update os (sp.releaseLast os ⟨w1, q⟩)).reclaimQueue = [] := by
  cases hl : os.load path with
  | none => rw [CreateFromPath_load_failed os path w hl] at hc; simp at hc
  | some h =>
    cases hr : requiredEntryPoints.all (fun n => (os.resolve h n).isSome) with
    | false => rw [CreateFromPath_unresolved os path w h hl hr] at hc; simp at hc
    | true =>
      obtain ⟨f1, f2, f3, f4, h1, h2, h3, h4⟩ := (all_resolved_iff os h).1 hr
      rw [CreateFromPath_resolved os path w h f1 f2 f3 f4 hl h1 h2 h3 h4] at hc
      simp only [Prod.mk.injEq, Option.some.injEq] at hc
      obtain ⟨hsp, hw⟩ := hc
      subst hsp hw
      refine ⟨rfl, rfl, by simp [closeCalls_append, closeCalls], h, rfl, by simp, by simp,
        ?_, rfl⟩
      show closeCalls (DynamicModuleLoader.Update os ⟨_, q ++ [_]⟩).world.events = _
      unfold DynamicModuleLoader.Update
      rw [drain_closeCalls]
      simp [queuedHandles, List.filterMap_append]

/-- Witness for C4: the descriptor loaded from `/modules/libmod_example.so` is released
without any close and its handle `7` is closed by the next `Update()`. -/
theorem release_defers_close_to_update_witness :
    ∃ sp w1,
      DynamicModule.CreateFromPath completePlatform "/modules/libmod_example.so" emptyWorld =
        (some sp, w1) ∧
      sp.releaseLast completePlatform ⟨w1, []⟩ = ⟨w1, [sp.ptr]⟩ ∧
      closeCalls w1.events = [] ∧
      closeCalls (DynamicModuleLoader.Update completePlatform
        (sp.releaseLast completePlatform ⟨w1, []⟩)).world.events = [7] :=
  ⟨_, _, rfl,
    (release_defers_close_to_update completePlatform "/modules/libmod_example.so" emptyWorld
      _ _ [] rfl).2.1, by decide, by decide⟩

theorem regex_match_nil (cs : List Char) : regex_match cs [] = true ↔ cs = [] := by
  cases cs <;> simp [regex_match]

theorem regex_match_chr (x : Char) (as : List Atom) (cs : List Char) :
    regex_match cs (Atom.chr x :: as) = true ↔
      ∃ cs', cs = x :: cs' ∧ regex_match cs' as = true := by
  cases cs with
  | nil => simp [regex_match]
  | cons c cs =>
    simp only [regex_match, Atom.accepts, Bool.and_eq_true, beq_iff_eq, List.cons.injEq]
    constructor
    · rintro ⟨rfl, h⟩; exact ⟨cs, ⟨rfl, rfl⟩, h⟩
    · rintro ⟨cs', ⟨rfl, rfl⟩, h⟩; exact ⟨rfl, h⟩

theorem regex_match_bracket (items : List ClassItem) (as : List Atom) (cs : List Char) :
    regex_match cs (Atom.bracket items :: as) = true ↔
      ∃ c cs', cs = c :: cs' ∧ items.any (·.accepts c) = true ∧ regex_match cs' as = true := by
  cases cs with
  | nil => simp [regex_match]
  | cons c cs =>
    simp only [regex_match, Atom.accepts, Bool.and_eq_true, List.cons.injEq]
    constructor
    · rintro ⟨h1, h2⟩; exact ⟨c, cs, ⟨rfl, rfl⟩, h1, h2⟩
    · rintro ⟨c', cs', ⟨rfl, rfl⟩, h1, h2⟩; exact ⟨h1, h2⟩

theorem identifier_class (c : Char) :
    [ClassItem.range 'a' 'z', ClassItem.range 'A' 'Z', ClassItem.range '0' '9',
      ClassItem.single '_', ClassItem.single '-'].any (·.accepts c) = isIdentifierChar c := by
  simp [ClassItem.accepts, isIdentifierChar, Bool.or_assoc]

theorem pattern_posix :
    parseRegex .outside (format "{}_[a-zA-Z0-9_-]{}"
      [SHARED_LIBRARY_PREFIX .POSIX, SHARED_LIBRARY_EXTENSION .POSIX]).data =
    some [.chr 'l', .chr 'i', .chr 'b', .chr 'm', .chr 'o', .chr 'd', .chr '_',
      .bracket [.range 'a' 'z', .range 'A' 'Z', .range '0' '9', .single '_', .single '-'],
      .chr 's', .chr 'o'] := by decide

theorem pattern_apple :
    parseRegex .outside (format "{}_[a-zA-Z0-9_-]{}"
      [SHARED_LIBRARY_PREFIX .APPLE, SHARED_LIBRARY_EXTENSION .APPLE]).data =
    some [.chr 'l', .chr 'i', .chr 'b', .chr 'm', .chr 'o', .chr 'd', .chr '_',
      .bracket [.range 'a' 'z', .range 'A' 'Z', .range '0' '9', .single '_', .single '-'],
      .chr 'd', .chr 'y', .chr 'l', .chr 'i', .chr 'b'] := by decide

theorem pattern_windows :
    parseRegex .outside (format "{}_[a-zA-Z0-9_-]{}"
      [SHARED_LIBRARY_PREFIX .WINDOWS, SHARED_LIBRARY_EXTENSION .WINDOWS]).data =
    some [.chr '_',
      .bracket [.range 'a' 'z', .range 'A' 'Z', .range '0' '9', .single '_', .single '-'],
      .chr 'd', .chr 'l', .chr 'l'] := by decide

theorem HasValidDynamicModuleName_iff (target : AC_PLATFORM) (name : String) :
    HasValidDynamicModuleName target name = true ↔
      ∃ c, isIdentifierChar c = true ∧
        name = SHARED_LIBRARY_PREFIX target ++ "_" ++ String.singleton c ++
          SHARED_LIBRARY_EXTENSION target := by
  cases target
  · simp only [HasValidDynamicModuleName, pattern_windows, regex_match_chr,
      regex_match_bracket, regex_match_nil, identifier_class]
    constructor
    · rintro ⟨_, h0, c, _, rfl, hc, _, rfl, _, rfl, _, rfl, rfl⟩
      refine ⟨c, hc, ?_⟩
      apply String.ext
      simp [h0, SHARED_LIBRARY_PREFIX, SHARED_LIBRARY_EXTENSION, String.singleton]
    · rintro ⟨c, hc, rfl⟩
      exact ⟨_, rfl, c, _, rfl, hc, _, rfl, _, rfl, _, rfl, rfl⟩
  · simp only [HasValidDynamicModuleName, pattern_apple, regex_match_chr,
      regex_match_bracket, regex_match_nil, identifier_class]
    constructor
    · rintro ⟨_, h0, _, rfl, _, rfl, _, rfl, _, rfl, _, rfl, _, rfl, c, _, rfl, hc,
        _, rfl, _, rfl, _, rfl, _, rfl, _, rfl, rfl⟩
      refine ⟨c, hc, ?_⟩
      apply String.ext
      simp [h0, SHARED_LIBRARY_PREFIX, SHARED_LIBRARY_EXTENSION, String.singleton]
    · rintro ⟨c, hc, rfl⟩
      exact ⟨_, rfl, _, rfl, _, rfl, _, rfl, _, rfl, _, rfl, _, rfl, c, _, rfl, hc,
        _, rfl, _, rfl, _, rfl, _, rfl, _, rfl, rfl⟩
  · simp only [HasValidDynamicModuleName, pattern_posix, regex_match_chr,
      regex_match_bracket, regex_match_nil, identifier_class]
    constructor
    · rintro ⟨_, h0, _, rfl, _, rfl, _, rfl, _, rfl, _, rfl, _, rfl, c, _, rfl, hc,
        _, rfl, _, rfl, rfl⟩
      refine ⟨c, hc, ?_⟩
      apply String.ext
      simp [h0, SHARED_LIBRARY_PREFIX, SHARED_LIBRARY_EXTENSION, String.singleton]
    · rintro ⟨c, hc, rfl⟩
      exact ⟨_, rfl, _, rfl, _, rfl, _, rfl, _, rfl, _, rfl, _, rfl, c, _, rfl, hc,
        _, rfl, _, rfl, rfl⟩

/-- C10: as written, the pattern of `HasValidDynamicModuleName` is the prefix, an
underscore, exactly one character of `[a-zA-Z0-9_-]` and the extension, with no dot and no
repetition, matched against the whole name (on every platform); on POSIX the function
returns true exactly for `libmod_` followed by one such character followed by `so`, so
every accepted name has length 10 and contains no `.`. -/
theorem HasValidDynamicModuleName_as_written (name : String) :
    (HasValidDynamicModuleName .POSIX name = true ↔
      ∃ c, isIdentifierChar c = true ∧ name = "libmod_" ++ String.singleton c ++ "so") ∧
    (∀ target, HasValidDynamicModuleName target name = true ↔
      ∃ c, isIdentifierChar c = true ∧
        name = SHARED_LIBRARY_PREFIX target ++ "_" ++ String.singleton c ++
          SHARED_LIBRARY_EXTENSION target) ∧
    (HasValidDynamicModuleName .POSIX name = true →
      name.length = 10 ∧ '.' ∉ name.data) := by
  have hp : HasValidDynamicModuleName .POSIX name = true ↔
      ∃ c, isIdentifierChar c = true ∧ name = "libmod_" ++ String.singleton c ++ "so" := by
    rw [HasValidDynamicModuleName_iff]
    constructor
    · rintro ⟨c, hc, rfl⟩
      exact ⟨c, hc, by apply String.ext; simp [SHARED_LIBRARY_PREFIX, SHARED_LIBRARY_EXTENSION]⟩
    · rintro ⟨c, hc, rfl⟩
      exact ⟨c, hc, by apply String.ext; simp [SHARED_LIBRARY_PREFIX, SHARED_LIBRARY_EXTENSION]⟩
  refine ⟨hp, fun target => HasValidDynamicModuleName_iff target name, fun h => ?_⟩
  obtain ⟨c, hc, rfl⟩ := hp.1 h
  have hdata : ("libmod_" ++ String.singleton c ++ "so").data =
      ['l', 'i', 'b', 'm', 'o', 'd', '_', c, 's', 'o'] := by
    simp [String.singleton]
  have hdot : c ≠ '.' := by
    rintro rfl
    exact absurd hc (by decide)
  refine ⟨?_, ?_⟩
  · show ("libmod_" ++ String.singleton c ++ "so").data.length = 10
    rw [hdata]
    rfl
  · rw [hdata]
    simp [Ne.symm hdot]

/-- Witness for C10: `libmod_xso` is accepted on POSIX, has length 10 and no dot. -/
theorem HasValidDynamicModuleName_as_written_witness :
    HasValidDynamicModuleName .POSIX "libmod_xso" = true ∧
      "libmod_xso".length = 10 ∧ '.' ∉ "libmod_xso".data :=
  ⟨by decide, (HasValidDynamicModuleName_as_written "libmod_xso").2.2 (by decide)⟩

/-- C3 (the code at the failing input): on POSIX `HasValidDynamicModuleName` rejects
`libmod_combat-ai.so`, a name of the form `<prefix>_<identifier>.<extension>` that the
naming convention accepts; the names `libmod_.so`, `mod_combat.so` and `libmod_combat.txt`
are rejected by both. -/
theorem HasValidDynamicModuleName_rejects_conventional_name :
    validModuleName_spec .POSIX "libmod_combat-ai.so" = true ∧
    HasValidDynamicModuleName .POSIX "libmod_combat-ai.so" = false ∧
    HasValidDynamicModuleName .POSIX "libmod_.so" = false ∧
    HasValidDynamicModuleName .POSIX "mod_combat.so" = false ∧
    HasValidDynamicModuleName .POSIX "libmod_combat.txt" = false ∧
    validModuleName_spec .POSIX "libmod_.so" = false ∧
    validModuleName_spec .POSIX "mod_combat.so" = false ∧
    validModuleName_spec .POSIX "libmod_combat.txt" = false := by
  decide

end Modules

